import Mathlib

/-!
# Verification of the VmbPy feature/notification layer

Shallow embedding of the feature change-notification machinery of this
repository (`vimba/feature/base_feature.py`, `vimba/interface.py`,
`vmbpy/featurecontainer.py`) together with proofs about it.

Conventions of the embedding:

* Python lists become Lean `List`s; `list.remove` is `List.erase`
  (both drop the first occurrence).
* Change handlers are identified by natural numbers; a handler's runtime
  behaviour when invoked is supplied as a function (it may return normally
  or raise, i.e. produce `Except.error`).
* Calls into the native SDK (`call_vimba_c_func` / `call_vimba_c` /
  `call_vmb_c`) are recorded in an emitted trace of `NativeCall` values;
  the code under test never inspects the SDK's answers for the operations
  modelled here, so the trace is all that matters.
* Locks are dropped: the embedding is sequential, and every modelled
  operation holds `_change_handlers_lock` for its whole body, so the
  sequential semantics is exactly the per-operation atomic semantics.
* Raising a Python exception becomes returning `Except.error`.
-/

namespace VmbPy

/-- A call into the native SDK, as recorded while executing the binding
code.  `invalidationRegister`/`invalidationUnregister` correspond to
`VmbFeatureInvalidationRegister`/`VmbFeatureInvalidationUnregister`,
`interfaceOpen`/`interfaceClose` to `VmbInterfaceOpen`/`VmbInterfaceClose`,
and `settingsLoad`/`settingsSave` to `VmbSettingsLoad`/`VmbSettingsSave`. -/
inductive NativeCall where
  | invalidationRegister (featName : String)
  | invalidationUnregister (featName : String)
  | interfaceOpen (interfaceId : String)
  | interfaceClose
  | settingsLoad (path : String)
  | settingsSave (path : String)
  deriving Repr, DecidableEq

/-- A Python exception raised by the embedded code.
`vmbFeatureError` stands for `VmbFeatureError`/`VimbaFeatureError` (the
feature-not-found error), `valueError` for `ValueError`, and
`reentrancyError` for the `ReentrancyError` the specification postulates
for set-from-own-handler. -/
inductive PyError where
  | valueError (msg : String)
  | vmbFeatureError (msg : String)
  | reentrancyError (featName : String)
  deriving Repr, DecidableEq

/-- The state of one `BaseFeature` that the modelled operations touch:
its name (`_info.name`) and its `_change_handlers` list.  Handlers are
identified by `Nat`. -/
structure FeatureState where
  name : String
  changeHandlers : List Nat
  deriving Repr, DecidableEq

/-- A freshly discovered feature: `BaseFeature.__init__` starts with an
empty `_change_handlers` list. -/
def initFeature (name : String) : FeatureState :=
  { name := name, changeHandlers := [] }

namespace BaseFeature

/-- `BaseFeature._register_callback`: one native invalidation-register
call for this feature. -/
def registerCallbackCalls (s : FeatureState) : List NativeCall :=
  [NativeCall.invalidationRegister s.name]

/-- `BaseFeature._unregister_callback`: one native invalidation-unregister
call for this feature. -/
def unregisterCallbackCalls (s : FeatureState) : List NativeCall :=
  [NativeCall.invalidationUnregister s.name]

/-- `BaseFeature.register_change_handler`: if the handler is already
registered, return unchanged; otherwise append it, and if the list just
became a singleton, perform the native registration. -/
def register_change_handler (s : FeatureState) (h : Nat) :
    FeatureState × List NativeCall :=
  if h ∈ s.changeHandlers then
    (s, [])
  else
    let handlers := s.changeHandlers ++ [h]
    let s' := { s with changeHandlers := handlers }
    (s', if handlers.length = 1 then registerCallbackCalls s else [])

/-- `BaseFeature.unregister_all_change_handlers`: if any handler is
registered, perform the native unregistration and clear the list. -/
def unregister_all_change_handlers (s : FeatureState) :
    FeatureState × List NativeCall :=
  if s.changeHandlers.isEmpty then
    (s, [])
  else
    ({ s with changeHandlers := [] }, unregisterCallbackCalls s)

/-- `BaseFeature.unregister_change_handler`: if the handler is not
registered, return unchanged; otherwise, when it is the only handler,
perform the native unregistration, then remove the handler. -/
def unregister_change_handler (s : FeatureState) (h : Nat) :
    FeatureState × List NativeCall :=
  if h ∈ s.changeHandlers then
    ({ s with changeHandlers := s.changeHandlers.erase h },
      if s.changeHandlers.length = 1 then unregisterCallbackCalls s else [])
  else
    (s, [])

/-- The error message built in the `except` clause of
`BaseFeature._callback_impl` (the `Type:` part of the Python format is
folded into the carried exception text). -/
def changeHandlerErrorMsg (h : Nat) (e : String) : String :=
  "Caught Exception in change_handler: Value: " ++ e ++
    ", raised by: " ++ toString h

/-- What one run of the invalidation callback did: the handler
invocations it performed, in order, each carrying the feature object
passed as argument (`change_handler(self)`), and the error-log entries
it wrote. -/
structure DispatchResult where
  calls : List (Nat × FeatureState)
  logMsgs : List String
  deriving Repr, DecidableEq

/-- The `for` loop of `BaseFeature._callback_impl`: invoke each handler
with `self`; a raising handler (`Except.error`) is caught by the
`except BaseException` clause, which logs and lets the loop continue. -/
def dispatchLoop (s : FeatureState) (behave : Nat → Except String Unit) :
    List Nat → DispatchResult → Except String DispatchResult
  | [], acc => Except.ok acc
  | h :: rest, acc =>
      let acc' := { acc with calls := acc.calls ++ [(h, s)] }
      match behave h with
      | Except.ok _ => dispatchLoop s behave rest acc'
      | Except.error e =>
          dispatchLoop s behave rest
            { acc' with logMsgs := acc'.logMsgs ++ [changeHandlerErrorMsg h e] }

/-- `BaseFeature._callback_impl`: loop over `_change_handlers` under the
lock; an `Except.error` result would model an exception propagating out
of the callback into the foreign SDK thread. -/
def _callback_impl (s : FeatureState) (behave : Nat → Except String Unit) :
    Except String DispatchResult :=
  dispatchLoop s behave s.changeHandlers { calls := [], logMsgs := [] }

end BaseFeature

/-- One call on a feature's handler-registration interface. -/
inductive HandlerOp where
  | register (h : Nat)
  | unregister (h : Nat)
  | unregisterAll
  deriving Repr, DecidableEq

/-- Execute one `HandlerOp` on a feature, returning the new state and the
native SDK calls it performed. -/
def handlerStep (s : FeatureState) : HandlerOp → FeatureState × List NativeCall
  | HandlerOp.register h => BaseFeature.register_change_handler s h
  | HandlerOp.unregister h => BaseFeature.unregister_change_handler s h
  | HandlerOp.unregisterAll => BaseFeature.unregister_all_change_handlers s

/-- Execute a sequence of `HandlerOp`s, concatenating native-call traces. -/
def runHandlerOps (s : FeatureState) : List HandlerOp → FeatureState × List NativeCall
  | [] => (s, [])
  | op :: ops =>
      let r := handlerStep s op
      let r' := runHandlerOps r.1 ops
      (r'.1, r.2 ++ r'.2)

/-- The native SDK's view of whether the invalidation callback for this
feature is registered, obtained by replaying the recorded native calls
on an initial registration state. -/
def callbackRegistered (b : Bool) : List NativeCall → Bool
  | [] => b
  | NativeCall.invalidationRegister _ :: cs => callbackRegistered true cs
  | NativeCall.invalidationUnregister _ :: cs => callbackRegistered false cs
  | _ :: cs => callbackRegistered b cs

/-- Modelled from the spec: the typed feature subclasses implementing
`set` (`IntFeature`, `EnumFeature`, ...) are not among the sources; §4.1
specifies that `set` "invoked reentrantly from within that same Feature's
own change handler fails with `ReentrancyError` ... detected via a
per-feature 'in-callback' flag set for the duration of callback
dispatch".  The flag the spec postulates is therefore added next to the
feature state, together with a current value for the writable feature. -/
structure FlaggedFeature where
  feat : FeatureState
  inCallback : Bool
  value : Int
  deriving Repr, DecidableEq

/-- Modelled from the spec: `set` rejects with `ReentrancyError` exactly
when the per-feature in-callback flag of its target is set (§4.1), and
otherwise writes the value. -/
def specSet (f : FlaggedFeature) (v : Int) : Except PyError FlaggedFeature :=
  if f.inCallback then
    Except.error (PyError.reentrancyError f.feat.name)
  else
    Except.ok { f with value := v }

/-- What a change handler does when invoked during dispatch: nothing,
`set` on its own feature, or `set` on a different feature. -/
inductive HandlerAction where
  | nop
  | setSelf (v : Int)
  | setOther (v : Int)
  deriving Repr, DecidableEq

/-- State threaded through a dispatch whose handlers call `set`:
the dispatching feature (`self`), one other feature, and per-handler
outcomes (`none` = the handler's `set` returned normally, `some e` = it
raised `e`, caught by the dispatcher's `except` clause). -/
structure SetDispatchState where
  self : FlaggedFeature
  other : FlaggedFeature
  outcomes : List (Nat × Option PyError)
  deriving Repr, DecidableEq

/-- The loop of `BaseFeature._callback_impl` (lines 151-166 of
`vimba/feature/base_feature.py`) run with handlers that call `set`: the
dispatcher only iterates over `_change_handlers` and catches handler
exceptions — faithfully to the source it manipulates no in-callback
flag, neither before, during, nor after the loop. -/
def setDispatchLoop (act : Nat → HandlerAction) :
    List Nat → SetDispatchState → SetDispatchState
  | [], st => st
  | h :: rest, st =>
      let st' :=
        match act h with
        | HandlerAction.nop => { st with outcomes := st.outcomes ++ [(h, none)] }
        | HandlerAction.setSelf v =>
            match specSet st.self v with
            | Except.ok f =>
                { st with self := f, outcomes := st.outcomes ++ [(h, none)] }
            | Except.error e =>
                { st with outcomes := st.outcomes ++ [(h, some e)] }
        | HandlerAction.setOther v =>
            match specSet st.other v with
            | Except.ok f =>
                { st with other := f, outcomes := st.outcomes ++ [(h, none)] }
            | Except.error e =>
                { st with outcomes := st.outcomes ++ [(h, some e)] }
      setDispatchLoop act rest st'

/-- `BaseFeature._callback_impl` dispatching the handlers of `self.feat`
against the spec-modelled `set`. -/
def callback_impl_with_set (self other : FlaggedFeature)
    (act : Nat → HandlerAction) : SetDispatchState :=
  setDispatchLoop act self.feat.changeHandlers
    { self := self, other := other, outcomes := [] }

/-- `str.endswith`, on the character list of the string (Lean's built-in
byte-position based `String.endsWith` does not reduce in the kernel). -/
def endswith (s suffix : String) : Bool :=
  suffix.data.isSuffixOf s.data

/-- Modelled from the spec: the `shared` helper module
(`vmbpy/shared.py`) is not among the sources.  Per §4.2 the lookup
searches the discovered set for the feature with the given name; the
vmbpy variant hands back the feature, or a falsy result when absent
(its caller `get_feature_by_name` does the raising). -/
def filter_features_by_name (feats : List FeatureState) (name : String) :
    Option FeatureState :=
  feats.find? (fun f => f.name = name)

namespace FeatureContainer

/-- `FeatureContainer.get_feature_by_name` (`vmbpy/featurecontainer.py`):
run the filter and raise `VmbFeatureError` when it comes back falsy. -/
def get_feature_by_name (feats : List FeatureState) (name : String) :
    Except PyError FeatureState :=
  match filter_features_by_name feats name with
  | none =>
      Except.error (PyError.vmbFeatureError
        ("Feature " ++ name ++ " not found."))
  | some f => Except.ok f

end FeatureContainer

namespace Interface

/-- Modelled from the spec: the `shared` helper module
(`vimba/shared.py`) is not among the sources.  Per §4.2
`get_feature_by_name(name) -> Feature` "fails with `FeatureNotFound` if
absent", and the docstring of `Interface.get_feature_by_name` promises
`VimbaFeatureError` "if no feature is associated with feat_name", so the
missing vimba filter itself raises on a miss. -/
def filter_features_by_name_raising (feats : List FeatureState)
    (name : String) : Except PyError FeatureState :=
  match feats.find? (fun f => f.name = name) with
  | none =>
      Except.error (PyError.vmbFeatureError
        ("Feature " ++ name ++ " not found."))
  | some f => Except.ok f

/-- `Interface.get_feature_by_name` (`vimba/interface.py`): return what
the filter produces. -/
def get_feature_by_name (feats : List FeatureState) (name : String) :
    Except PyError FeatureState :=
  filter_features_by_name_raising feats name

end Interface

/-- The state of one `Interface` (`vimba/interface.py`): its id string,
the `__handle` (`VmbHandle(0)` is the null handle), the `__feats` tuple,
and the `__context_cnt` counter (a Python `int`, hence `Int`). -/
structure InterfaceState where
  interfaceId : String
  handle : Nat
  feats : List FeatureState
  contextCnt : Int
  deriving Repr, DecidableEq

namespace Interface

/-- `Interface.__init__`: null handle, no features, counter at zero. -/
def initInterface (interfaceId : String) : InterfaceState :=
  { interfaceId := interfaceId, handle := 0, feats := [], contextCnt := 0 }

/-- `Interface._open`: `VmbInterfaceOpen` fills the handle by reference
and `discover_features` reports the features; both SDK answers are
parameters of the embedding. -/
def _open (s : InterfaceState) (newHandle : Nat)
    (discovered : List FeatureState) : InterfaceState × List NativeCall :=
  ({ s with handle := newHandle, feats := discovered },
    [NativeCall.interfaceOpen s.interfaceId])

/-- `Interface._close`: unregister all change handlers on every
discovered feature, drop the feature tuple, call `VmbInterfaceClose`,
and null the handle. -/
def _close (s : InterfaceState) : InterfaceState × List NativeCall :=
  let unregCalls :=
    (s.feats.map (fun f => (BaseFeature.unregister_all_change_handlers f).2)).flatten
  ({ s with feats := [], handle := 0 },
    unregCalls ++ [NativeCall.interfaceClose])

/-- `Interface.__enter__`: open only when the counter is zero, then
increment it. -/
def enterCtx (s : InterfaceState) (newHandle : Nat)
    (discovered : List FeatureState) : InterfaceState × List NativeCall :=
  let r := if s.contextCnt = 0 then _open s newHandle discovered else (s, [])
  ({ r.1 with contextCnt := r.1.contextCnt + 1 }, r.2)

/-- `Interface.__exit__`: decrement the counter, then close only when it
reached zero. -/
def exitCtx (s : InterfaceState) : InterfaceState × List NativeCall :=
  let s' := { s with contextCnt := s.contextCnt - 1 }
  if s'.contextCnt = 0 then _close s' else (s', [])

/-- `n` nested `__enter__` calls. -/
def enterN (newHandle : Nat) (discovered : List FeatureState) :
    Nat → InterfaceState → InterfaceState
  | 0, s => s
  | n + 1, s => enterN newHandle discovered n (enterCtx s newHandle discovered).1

/-- `n` nested `__exit__` calls. -/
def exitN : Nat → InterfaceState → InterfaceState
  | 0, s => s
  | n + 1, s => exitN n (exitCtx s).1

end Interface

/-- The state of one vmbpy `FeatureContainer`
(`vmbpy/featurecontainer.py`): `_feats`, the per-feature attribute
accessors currently attached to the object, and `__context_cnt`. -/
structure VmbpyContainerState where
  feats : List FeatureState
  attachedAccessors : List String
  contextCnt : Int
  deriving Repr, DecidableEq

namespace FeatureContainer

/-- `FeatureContainer.__init__` (vmbpy): empty feature tuple, counter at
zero, no accessors attached. -/
def initContainer : VmbpyContainerState :=
  { feats := [], attachedAccessors := [], contextCnt := 0 }

/-- `FeatureContainer._attach_feature_accessors`: on a zero counter,
discover features and attach the accessors, then increment.  The helper
`attach_feature_accessors` itself (in the absent `shared` module) is
modelled from the spec (§4.2): discovery "exposes each feature as an
attribute-style accessor in addition to name lookup". -/
def _attach_feature_accessors (c : VmbpyContainerState)
    (discovered : List FeatureState) : VmbpyContainerState :=
  let c' :=
    if c.contextCnt = 0 then
      { c with feats := discovered,
               attachedAccessors := discovered.map (fun f => f.name) }
    else c
  { c' with contextCnt := c'.contextCnt + 1 }

/-- `FeatureContainer._remove_feature_accessors`: decrement, and on a
zero counter remove the attached accessors (`_feats` itself is kept). -/
def _remove_feature_accessors (c : VmbpyContainerState) : VmbpyContainerState :=
  let c' := { c with contextCnt := c.contextCnt - 1 }
  if c'.contextCnt = 0 then { c' with attachedAccessors := [] } else c'

/-- `n` nested `_attach_feature_accessors` calls. -/
def attachN (discovered : List FeatureState) :
    Nat → VmbpyContainerState → VmbpyContainerState
  | 0, c => c
  | n + 1, c => attachN discovered n (_attach_feature_accessors c discovered)

/-- `n` nested `_remove_feature_accessors` calls. -/
def removeN : Nat → VmbpyContainerState → VmbpyContainerState
  | 0, c => c
  | n + 1, c => removeN n (_remove_feature_accessors c)

end FeatureContainer

namespace PersistableFeatureContainer

/-- `PersistableFeatureContainer.load_settings`: reject a path without
the `.xml` suffix, then a non-existing path, with `ValueError`; only
then perform the single native `VmbSettingsLoad` call.  `file_exists`
stands for `os.path.exists`. -/
def load_settings (file_exists : String → Bool) (file_path : String) :
    Except PyError Unit × List NativeCall :=
  if ¬ endswith file_path ".xml" then
    (Except.error (PyError.valueError
      ("Given file " ++ file_path ++ " must end with .xml")), [])
  else if ¬ file_exists file_path then
    (Except.error (PyError.valueError
      ("Given file " ++ file_path ++ " does not exist.")), [])
  else
    (Except.ok (), [NativeCall.settingsLoad file_path])

/-- `PersistableFeatureContainer.save_settings`: reject a path without
the `.xml` suffix with `ValueError`; only then perform the single native
`VmbSettingsSave` call. -/
def save_settings (file_path : String) :
    Except PyError Unit × List NativeCall :=
  if ¬ endswith file_path ".xml" then
    (Except.error (PyError.valueError
      ("Given file " ++ file_path ++ " must end with .xml")), [])
  else
    (Except.ok (), [NativeCall.settingsSave file_path])

end PersistableFeatureContainer

/-! ## Supporting lemmas -/

theorem isEmpty_false_of_ne_nil {α : Type} {l : List α} (h : l ≠ []) :
    l.isEmpty = false := by
  cases l with
  | nil => exact absurd rfl h
  | cons a l => rfl

/-- Closed form of `dispatchLoop`: it always returns normally, invokes
every handler of the remaining list in order passing the feature, and
logs exactly the raising handlers. -/
theorem dispatchLoop_eq (s : FeatureState) (behave : Nat → Except String Unit)
    (hs : List Nat) (acc : BaseFeature.DispatchResult) :
    BaseFeature.dispatchLoop s behave hs acc =
      Except.ok
        { calls := acc.calls ++ hs.map (fun h => (h, s)),
          logMsgs := acc.logMsgs ++ hs.filterMap (fun h =>
            match behave h with
            | Except.ok _ => none
            | Except.error e => some (BaseFeature.changeHandlerErrorMsg h e)) } := by
  induction hs generalizing acc with
  | nil => simp [BaseFeature.dispatchLoop]
  | cons h rest ih =>
      cases hb : behave h with
      | ok u => simp [BaseFeature.dispatchLoop, hb, ih]
      | error e => simp [BaseFeature.dispatchLoop, hb, ih]

theorem callbackRegistered_append (b : Bool) (cs ds : List NativeCall) :
    callbackRegistered b (cs ++ ds) =
      callbackRegistered (callbackRegistered b cs) ds := by
  induction cs generalizing b with
  | nil => rfl
  | cons c cs ih => cases c <;> simp [callbackRegistered, ih]

/-- A single `HandlerOp` emits the native registration call exactly on a
0→1 transition of the handler list. -/
theorem handlerStep_emits_register_iff (s : FeatureState) (op : HandlerOp) :
    (∃ n, NativeCall.invalidationRegister n ∈ (handlerStep s op).2) ↔
      (s.changeHandlers = [] ∧ (handlerStep s op).1.changeHandlers ≠ []) := by
  cases op with
  | register h =>
      by_cases hm : h ∈ s.changeHandlers
      · have hnil : s.changeHandlers ≠ [] := by
          intro hc; exact absurd (hc ▸ hm) (List.not_mem_nil h)
        simp [handlerStep, BaseFeature.register_change_handler, hm, hnil]
      · by_cases hnil : s.changeHandlers = []
        · simp [handlerStep, BaseFeature.register_change_handler, hm, hnil,
                BaseFeature.registerCallbackCalls]
        · have hlen : s.changeHandlers.length ≠ 0 := by
            simpa [List.length_eq_zero] using hnil
          simp [handlerStep, BaseFeature.register_change_handler, hm, hnil,
                Nat.succ_ne_succ, hlen]
  | unregister h =>
      by_cases hm : h ∈ s.changeHandlers
      · have hnil : s.changeHandlers ≠ [] := by
          intro hc; exact absurd (hc ▸ hm) (List.not_mem_nil h)
        by_cases h1 : s.changeHandlers.length = 1
        · simp [handlerStep, BaseFeature.unregister_change_handler, hm, h1,
                BaseFeature.unregisterCallbackCalls, hnil]
        · simp [handlerStep, BaseFeature.unregister_change_handler, hm, h1, hnil]
      · simp [handlerStep, BaseFeature.unregister_change_handler, hm]
  | unregisterAll =>
      by_cases hnil : s.changeHandlers.isEmpty
      · simp_all [handlerStep, BaseFeature.unregister_all_change_handlers,
                  List.isEmpty_iff]
      · simp [handlerStep, BaseFeature.unregister_all_change_handlers, hnil,
              BaseFeature.unregisterCallbackCalls]

/-- A single `HandlerOp` emits the native unregistration call exactly on
a 1→0 transition of the handler list. -/
theorem handlerStep_emits_unregister_iff (s : FeatureState) (op : HandlerOp) :
    (∃ n, NativeCall.invalidationUnregister n ∈ (handlerStep s op).2) ↔
      (s.changeHandlers ≠ [] ∧ (handlerStep s op).1.changeHandlers = []) := by
  cases op with
  | register h =>
      by_cases hm : h ∈ s.changeHandlers
      · simp [handlerStep, BaseFeature.register_change_handler, hm]
      · by_cases hnil : s.changeHandlers = []
        · simp [handlerStep, BaseFeature.register_change_handler, hm, hnil,
                BaseFeature.registerCallbackCalls]
        · have hlen : s.changeHandlers.length ≠ 0 := by
            simpa [List.length_eq_zero] using hnil
          simp [handlerStep, BaseFeature.register_change_handler, hm, hnil, hlen]
  | unregister h =>
      by_cases hm : h ∈ s.changeHandlers
      · have hnil : s.changeHandlers ≠ [] := by
          intro hc; exact absurd (hc ▸ hm) (List.not_mem_nil h)
        by_cases h1 : s.changeHandlers.length = 1
        · obtain ⟨a, ha⟩ := List.length_eq_one.mp h1
          have haa : a = h := by
            have h2 : h ∈ [a] := ha ▸ hm
            have h3 : h = a := by simpa using h2
            exact h3.symm
          simp [handlerStep, BaseFeature.unregister_change_handler, hm, h1,
                BaseFeature.unregisterCallbackCalls, hnil, ha, haa]
        · have hle : (s.changeHandlers.erase h).length = s.changeHandlers.length - 1 :=
            List.length_erase_of_mem hm
          have hne : s.changeHandlers.erase h ≠ [] := by
            intro hc
            have hlen0 : s.changeHandlers.length - 1 = 0 := by
              rw [← hle, hc]; rfl
            have hpos : 0 < s.changeHandlers.length := List.length_pos.mpr hnil
            omega
          simp [handlerStep, BaseFeature.unregister_change_handler, hm, h1, hne]
      · simp [handlerStep, BaseFeature.unregister_change_handler, hm]
  | unregisterAll =>
      by_cases hnil : s.changeHandlers.isEmpty
      · simp_all [handlerStep, BaseFeature.unregister_all_change_handlers,
                  List.isEmpty_iff]
      · simp_all [handlerStep, BaseFeature.unregister_all_change_handlers,
                  BaseFeature.unregisterCallbackCalls, List.isEmpty_iff]

/-- Full characterisation of the native calls of one `HandlerOp`:
exactly one registration on 0→1, exactly one unregistration on 1→0,
nothing otherwise. -/
theorem handlerStep_trace_eq (s : FeatureState) (op : HandlerOp) :
    (handlerStep s op).2 =
      if s.changeHandlers = [] ∧ (handlerStep s op).1.changeHandlers ≠ [] then
        [NativeCall.invalidationRegister s.name]
      else if s.changeHandlers ≠ [] ∧ (handlerStep s op).1.changeHandlers = [] then
        [NativeCall.invalidationUnregister s.name]
      else [] := by
  cases op with
  | register h =>
      by_cases hm : h ∈ s.changeHandlers
      · have hnil : s.changeHandlers ≠ [] := by
          intro hc; exact absurd (hc ▸ hm) (List.not_mem_nil h)
        simp [handlerStep, BaseFeature.register_change_handler, hm, hnil]
      · by_cases hnil : s.changeHandlers = []
        · simp [handlerStep, BaseFeature.register_change_handler, hm, hnil,
                BaseFeature.registerCallbackCalls]
        · have hlen : s.changeHandlers.length ≠ 0 := by
            simpa [List.length_eq_zero] using hnil
          simp [handlerStep, BaseFeature.register_change_handler, hm, hnil, hlen]
  | unregister h =>
      by_cases hm : h ∈ s.changeHandlers
      · have hnil : s.changeHandlers ≠ [] := by
          intro hc; exact absurd (hc ▸ hm) (List.not_mem_nil h)
        by_cases h1 : s.changeHandlers.length = 1
        · obtain ⟨a, ha⟩ := List.length_eq_one.mp h1
          have haa : a = h := by
            have h2 : h ∈ [a] := ha ▸ hm
            have h3 : h = a := by simpa using h2
            exact h3.symm
          simp [handlerStep, BaseFeature.unregister_change_handler, hm, h1,
                BaseFeature.unregisterCallbackCalls, hnil, ha, haa]
        · have hle : (s.changeHandlers.erase h).length = s.changeHandlers.length - 1 :=
            List.length_erase_of_mem hm
          have hne : s.changeHandlers.erase h ≠ [] := by
            intro hc
            have hlen0 : s.changeHandlers.length - 1 = 0 := by
              rw [← hle, hc]; rfl
            have hpos : 0 < s.changeHandlers.length := List.length_pos.mpr hnil
            omega
          simp [handlerStep, BaseFeature.unregister_change_handler, hm, h1,
                hne, hnil]
      · simp [handlerStep, BaseFeature.unregister_change_handler, hm]
  | unregisterAll =>
      by_cases hnil : s.changeHandlers.isEmpty
      · simp_all [handlerStep, BaseFeature.unregister_all_change_handlers,
                  List.isEmpty_iff]
      · simp_all [handlerStep, BaseFeature.unregister_all_change_handlers,
                  BaseFeature.unregisterCallbackCalls, List.isEmpty_iff]

/-- The native-call trace of a single `HandlerOp`, replayed on an SDK
registration state that mirrored non-emptiness of the old handler list,
yields the state mirroring the new handler list. -/
theorem callbackRegistered_handlerStep (s : FeatureState) (op : HandlerOp) :
    callbackRegistered (!s.changeHandlers.isEmpty) (handlerStep s op).2 =
      !(handlerStep s op).1.changeHandlers.isEmpty := by
  cases op with
  | register h =>
      by_cases hm : h ∈ s.changeHandlers
      · have hnil : s.changeHandlers ≠ [] := by
          intro hc; exact absurd (hc ▸ hm) (List.not_mem_nil h)
        simp [handlerStep, BaseFeature.register_change_handler, hm,
              callbackRegistered]
      · by_cases hnil : s.changeHandlers = []
        · simp [handlerStep, BaseFeature.register_change_handler, hm, hnil,
                BaseFeature.registerCallbackCalls, callbackRegistered]
        · have hlen : s.changeHandlers.length ≠ 0 := by
            simpa [List.length_eq_zero] using hnil
          simp [handlerStep, BaseFeature.register_change_handler, hm, hlen,
                callbackRegistered, isEmpty_false_of_ne_nil hnil,
                isEmpty_false_of_ne_nil (List.append_ne_nil_of_right_ne_nil
                  s.changeHandlers (List.cons_ne_nil h []))]
  | unregister h =>
      by_cases hm : h ∈ s.changeHandlers
      · have hnil : s.changeHandlers ≠ [] := by
          intro hc; exact absurd (hc ▸ hm) (List.not_mem_nil h)
        by_cases h1 : s.changeHandlers.length = 1
        · obtain ⟨a, ha⟩ := List.length_eq_one.mp h1
          have haa : a = h := by
            have h2 : h ∈ [a] := ha ▸ hm
            have h3 : h = a := by simpa using h2
            exact h3.symm
          simp [handlerStep, BaseFeature.unregister_change_handler, hm, h1,
                BaseFeature.unregisterCallbackCalls, callbackRegistered, ha, haa]
        · have hle : (s.changeHandlers.erase h).length = s.changeHandlers.length - 1 :=
            List.length_erase_of_mem hm
          have hne : s.changeHandlers.erase h ≠ [] := by
            intro hc
            have hlen0 : s.changeHandlers.length - 1 = 0 := by
              rw [← hle, hc]; rfl
            have hpos : 0 < s.changeHandlers.length := List.length_pos.mpr hnil
            omega
          simp [handlerStep, BaseFeature.unregister_change_handler, hm, h1,
                callbackRegistered, isEmpty_false_of_ne_nil hnil,
                isEmpty_false_of_ne_nil hne]
      · simp [handlerStep, BaseFeature.unregister_change_handler, hm,
              callbackRegistered]
  | unregisterAll =>
      by_cases hnil : s.changeHandlers.isEmpty
      · simp_all [handlerStep, BaseFeature.unregister_all_change_handlers,
                  callbackRegistered]
      · simp_all [handlerStep, BaseFeature.unregister_all_change_handlers,
                  BaseFeature.unregisterCallbackCalls, callbackRegistered]

/-- Replaying the whole trace of an operation sequence yields a
registration state mirroring the final handler list. -/
theorem callbackRegistered_runHandlerOps (s : FeatureState) (ops : List HandlerOp) :
    callbackRegistered (!s.changeHandlers.isEmpty) (runHandlerOps s ops).2 =
      !(runHandlerOps s ops).1.changeHandlers.isEmpty := by
  induction ops generalizing s with
  | nil => simp [runHandlerOps, callbackRegistered]
  | cons op ops ih =>
      simp only [runHandlerOps, callbackRegistered_append]
      rw [callbackRegistered_handlerStep]
      exact ih (handlerStep s op).1

/-- Registering a list of pairwise-distinct, not-yet-registered handlers
appends them to the handler list in call order (the name is untouched). -/
theorem runHandlerOps_registers (s : FeatureState) (hs : List Nat)
    (hnd : hs.Nodup) (hdisj : ∀ h ∈ hs, h ∉ s.changeHandlers) :
    (runHandlerOps s (hs.map HandlerOp.register)).1.changeHandlers =
      s.changeHandlers ++ hs ∧
    (runHandlerOps s (hs.map HandlerOp.register)).1.name = s.name := by
  induction hs generalizing s with
  | nil => simp [runHandlerOps]
  | cons h rest ih =>
      have hm : h ∉ s.changeHandlers := hdisj h (by simp)
      have hstep : handlerStep s (HandlerOp.register h) =
          ({ s with changeHandlers := s.changeHandlers ++ [h] },
            if (s.changeHandlers ++ [h]).length = 1 then
              BaseFeature.registerCallbackCalls s else []) := by
        simp [handlerStep, BaseFeature.register_change_handler, hm]
      have hrest := ih { s with changeHandlers := s.changeHandlers ++ [h] }
        (List.Nodup.of_cons hnd)
        (by
          intro x hx
          simp only [List.mem_append, List.mem_singleton]
          rintro (hx1 | hx2)
          · exact hdisj x (List.mem_cons_of_mem h hx) hx1
          · exact (List.nodup_cons.mp hnd).1 (hx2 ▸ hx))
      simp only [List.map_cons, runHandlerOps, hstep] at *
      exact ⟨by rw [hrest.1]; simp, hrest.2⟩

/-- A dispatch entered with both in-callback flags clear (the only state
the embedded sources can produce, since `_callback_impl` never sets the
flag) keeps them clear and lets every handler's `set` succeed. -/
theorem setDispatchLoop_no_reentrancy (act : Nat → HandlerAction)
    (hs : List Nat) (st : SetDispatchState)
    (h1 : st.self.inCallback = false) (h2 : st.other.inCallback = false) :
    (setDispatchLoop act hs st).self.inCallback = false ∧
    (setDispatchLoop act hs st).other.inCallback = false ∧
    (setDispatchLoop act hs st).outcomes =
      st.outcomes ++ hs.map (fun h => (h, (none : Option PyError))) := by
  induction hs generalizing st with
  | nil => simp [setDispatchLoop, h1, h2]
  | cons h rest ih =>
      cases hact : act h with
      | nop =>
          have := ih { st with outcomes := st.outcomes ++ [(h, none)] } h1 h2
          simpa [setDispatchLoop, hact] using this
      | setSelf v =>
          have := ih { st with self := { st.self with value := v },
                               outcomes := st.outcomes ++ [(h, none)] } h1 h2
          simpa [setDispatchLoop, hact, specSet, h1] using this
      | setOther v =>
          have := ih { st with other := { st.other with value := v },
                               outcomes := st.outcomes ++ [(h, none)] } h1 h2
          simpa [setDispatchLoop, hact, specSet, h2] using this

/-- The unregister-all calls performed by `Interface._close` over the
feature tuple: one per feature that has handlers, in tuple order. -/
theorem close_unreg_trace (feats : List FeatureState) :
    (feats.map (fun f => (BaseFeature.unregister_all_change_handlers f).2)).flatten =
      (feats.filter (fun f => !f.changeHandlers.isEmpty)).map
        (fun f => NativeCall.invalidationUnregister f.name) := by
  induction feats with
  | nil => rfl
  | cons f feats ih =>
      by_cases hf : f.changeHandlers = []
      · have h1 : (BaseFeature.unregister_all_change_handlers f).2 = [] := by
          simp [BaseFeature.unregister_all_change_handlers, hf]
        have h2 : (!f.changeHandlers.isEmpty) = false := by simp [hf]
        simp only [List.map_cons, List.flatten_cons, h1, List.nil_append,
                   List.filter_cons, h2, Bool.false_eq_true, if_false]
        exact ih
      · have h1 : (BaseFeature.unregister_all_change_handlers f).2 =
            [NativeCall.invalidationUnregister f.name] := by
          simp [BaseFeature.unregister_all_change_handlers,
                isEmpty_false_of_ne_nil hf, BaseFeature.unregisterCallbackCalls]
        have h2 : (!f.changeHandlers.isEmpty) = true := by
          simp [isEmpty_false_of_ne_nil hf]
        simp only [List.map_cons, List.flatten_cons, h1, List.filter_cons, h2,
                   if_true, List.singleton_append]
        rw [ih]

/-- Entering an already-entered interface only bumps the counter. -/
theorem enterN_of_pos (newHandle : Nat) (discovered : List FeatureState)
    (n : Nat) (s : InterfaceState) (hpos : 0 < s.contextCnt) :
    Interface.enterN newHandle discovered n s =
      { s with contextCnt := s.contextCnt + n } := by
  induction n generalizing s with
  | zero => simp [Interface.enterN]
  | succ n ih =>
      have hne : s.contextCnt ≠ 0 := by omega
      have hstep : (Interface.enterCtx s newHandle discovered).1 =
          { s with contextCnt := s.contextCnt + 1 } := by
        simp [Interface.enterCtx, hne]
      rw [Interface.enterN, hstep, ih]
      · simp only [InterfaceState.mk.injEq, true_and]
        omega
      · simpa using by omega

/-- Exiting as many times as the counter stands at closes exactly once,
at the last exit, and lands in the closed state. -/
theorem exitN_closes (n : Nat) (s : InterfaceState)
    (hcnt : s.contextCnt = n) (hpos : 0 < n) :
    Interface.exitN n s =
      { s with feats := [], handle := 0, contextCnt := 0 } := by
  induction n generalizing s with
  | zero => omega
  | succ n ih =>
      by_cases hn : n = 0
      · subst hn
        have hone : s.contextCnt - 1 = 0 := by omega
        simp [Interface.exitN, Interface.exitCtx, Interface._close, hone]
      · have hdec : (Interface.exitCtx s).1 =
            { s with contextCnt := s.contextCnt - 1 } := by
          have : s.contextCnt - 1 ≠ 0 := by omega
          simp [Interface.exitCtx, this]
        rw [Interface.exitN, hdec, ih]
        · simp [hcnt]
        · omega

/-- Re-attaching accessors on an attached container only bumps the
counter. -/
theorem attachN_of_pos (discovered : List FeatureState) (n : Nat)
    (c : VmbpyContainerState) (hpos : 0 < c.contextCnt) :
    FeatureContainer.attachN discovered n c =
      { c with contextCnt := c.contextCnt + n } := by
  induction n generalizing c with
  | zero => simp [FeatureContainer.attachN]
  | succ n ih =>
      have hne : c.contextCnt ≠ 0 := by omega
      have hstep : FeatureContainer._attach_feature_accessors c discovered =
          { c with contextCnt := c.contextCnt + 1 } := by
        simp [FeatureContainer._attach_feature_accessors, hne]
      rw [FeatureContainer.attachN, hstep, ih]
      · simp only [VmbpyContainerState.mk.injEq, true_and]
        omega
      · simpa using by omega

/-- Removing accessors as many times as the counter stands at detaches
them exactly once, at the last removal. -/
theorem removeN_detaches (n : Nat) (c : VmbpyContainerState)
    (hcnt : c.contextCnt = n) (hpos : 0 < n) :
    FeatureContainer.removeN n c =
      { c with attachedAccessors := [], contextCnt := 0 } := by
  induction n generalizing c with
  | zero => omega
  | succ n ih =>
      by_cases hn : n = 0
      · subst hn
        have hone : c.contextCnt - 1 = 0 := by omega
        simp [FeatureContainer.removeN, FeatureContainer._remove_feature_accessors,
              hone]
      · have hdec : FeatureContainer._remove_feature_accessors c =
            { c with contextCnt := c.contextCnt - 1 } := by
          have : c.contextCnt - 1 ≠ 0 := by omega
          simp [FeatureContainer._remove_feature_accessors, this]
        rw [FeatureContainer.removeN, hdec, ih]
        · simp [hcnt]
        · omega

/-! ## Claims -/

/-- C1: when the invalidation callback of a feature runs, every
registered handler is invoked, in list order, with the feature as
argument, even when some handlers raise; a raising handler's exception
is caught and logged (one log entry per raising handler) and never
propagates: the callback always returns normally (`Except.ok`), so
nothing crosses the foreign-call boundary into the SDK thread. -/
theorem C1_dispatch_isolates_handler_errors (s : FeatureState)
    (behave : Nat → Except String Unit) :
    BaseFeature._callback_impl s behave =
      Except.ok
        { calls := s.changeHandlers.map (fun h => (h, s)),
          logMsgs := s.changeHandlers.filterMap (fun h =>
            match behave h with
            | Except.ok _ => none
            | Except.error e => some (BaseFeature.changeHandlerErrorMsg h e)) } := by
  simpa using dispatchLoop_eq s behave s.changeHandlers
    { calls := [], logMsgs := [] }

/-- C2: over any operation sequence from a fresh feature, the SDK-side
registration state (obtained by replaying the emitted native calls)
always equals non-emptiness of the handler list; and a single operation
emits exactly one native registration call on a 0→1 transition of the
handler list, exactly one native unregistration call on a 1→0 transition
(also via `unregister_all_change_handlers`), and no call otherwise. -/
theorem C2_native_registration_mirrors_handlers (name : String)
    (ops : List HandlerOp) (s : FeatureState) (op : HandlerOp) :
    callbackRegistered false (runHandlerOps (initFeature name) ops).2 =
      !(runHandlerOps (initFeature name) ops).1.changeHandlers.isEmpty ∧
    (handlerStep s op).2 =
      (if s.changeHandlers = [] ∧ (handlerStep s op).1.changeHandlers ≠ [] then
        [NativeCall.invalidationRegister s.name]
      else if s.changeHandlers ≠ [] ∧ (handlerStep s op).1.changeHandlers = [] then
        [NativeCall.invalidationUnregister s.name]
      else []) := by
  constructor
  · have hmain := callbackRegistered_runHandlerOps (initFeature name) ops
    simpa [initFeature] using hmain
  · exact handlerStep_trace_eq s op

/-- C3: registering an already-registered handler is a no-op that leaves
the handler list unchanged and makes no native call (so the handler is
in the list exactly once and one change event invokes it exactly once);
unregistering an absent handler is a silent no-op changing neither the
list nor the native registration; both operations are idempotent. -/
theorem C3_register_unregister_idempotent (s : FeatureState) (h : Nat)
    (hcount : s.changeHandlers.count h ≤ 1) :
    BaseFeature.register_change_handler
        (BaseFeature.register_change_handler s h).1 h =
      ((BaseFeature.register_change_handler s h).1, []) ∧
    (BaseFeature.register_change_handler s h).1.changeHandlers.count h = 1 ∧
    (h ∉ s.changeHandlers →
      BaseFeature.unregister_change_handler s h = (s, [])) ∧
    BaseFeature.unregister_change_handler
        (BaseFeature.unregister_change_handler s h).1 h =
      ((BaseFeature.unregister_change_handler s h).1, []) := by
  refine ⟨?_, ?_, ?_, ?_⟩
  · by_cases hm : h ∈ s.changeHandlers
    · have hfst : (BaseFeature.register_change_handler s h).1 = s := by
        simp [BaseFeature.register_change_handler, hm]
      rw [hfst]
      simp [BaseFeature.register_change_handler, hm]
    · have hfst : (BaseFeature.register_change_handler s h).1 =
          { s with changeHandlers := s.changeHandlers ++ [h] } := by
        simp [BaseFeature.register_change_handler, hm]
      rw [hfst]
      simp [BaseFeature.register_change_handler]
  · by_cases hm : h ∈ s.changeHandlers
    · have h0 : s.changeHandlers.count h ≠ 0 := by
        simpa [List.count_eq_zero] using hm
      simp [BaseFeature.register_change_handler, hm]
      omega
    · have h0 : s.changeHandlers.count h = 0 := by
        simpa [List.count_eq_zero] using hm
      simp [BaseFeature.register_change_handler, hm, h0]
  · intro hm
    simp [BaseFeature.unregister_change_handler, hm]
  · by_cases hm : h ∈ s.changeHandlers
    · have h0 : s.changeHandlers.count h ≠ 0 := by
        simpa [List.count_eq_zero] using hm
      have h1 : s.changeHandlers.count h = 1 := by omega
      have hz : (s.changeHandlers.erase h).count h = 0 := by
        rw [List.count_erase_self, h1]
      have hne : h ∉ s.changeHandlers.erase h := List.count_eq_zero.mp hz
      have hfst : (BaseFeature.unregister_change_handler s h).1 =
          { s with changeHandlers := s.changeHandlers.erase h } := by
        simp [BaseFeature.unregister_change_handler, hm]
      rw [hfst]
      simp [BaseFeature.unregister_change_handler, hne]
    · have hfst : (BaseFeature.unregister_change_handler s h).1 = s := by
        simp [BaseFeature.unregister_change_handler, hm]
      rw [hfst]
      simp [BaseFeature.unregister_change_handler, hm]

/-- Witness for C3 at a concrete feature state. -/
theorem C3_register_unregister_idempotent_witness :
    (({ name := "Gain", changeHandlers := [1, 2] } : FeatureState).changeHandlers.count 3 ≤ 1) ∧
    BaseFeature.unregister_change_handler
        ({ name := "Gain", changeHandlers := [1, 2] } : FeatureState) 3 =
      ({ name := "Gain", changeHandlers := [1, 2] }, []) :=
  ⟨by decide,
    (C3_register_unregister_idempotent
        { name := "Gain", changeHandlers := [1, 2] } 3 (by decide)).2.2.1
      (by decide)⟩

/-- C4 counterexample: a feature with one registered handler that calls
`set` on that same feature during dispatch.  The claim predicts a
`ReentrancyError` detected via the per-feature in-callback flag; but the
dispatcher of the sources sets no flag, so the spec-modelled `set`
returns normally (outcome `none`) and writes the value. -/
theorem C4_set_in_own_handler_counterexample :
    callback_impl_with_set
        { feat := { name := "Height", changeHandlers := [0] },
          inCallback := false, value := 0 }
        { feat := { name := "Width", changeHandlers := [] },
          inCallback := false, value := 0 }
        (fun _ => HandlerAction.setSelf 5) =
      { self := { feat := { name := "Height", changeHandlers := [0] },
                  inCallback := false, value := 5 },
        other := { feat := { name := "Width", changeHandlers := [] },
                   inCallback := false, value := 0 },
        outcomes := [(0, none)] } := by
  rfl

/-- C4 (amended): `_callback_impl` maintains no in-callback flag — a
dispatch entered with clear flags leaves every flag clear throughout —
so a `set` issued from inside the same feature's own change handler is
not rejected with `ReentrancyError` by the binding; it succeeds exactly
like a `set` on a different feature does. -/
theorem C4_no_flag_no_reentrancy_rejection (self other : FlaggedFeature)
    (act : Nat → HandlerAction)
    (h1 : self.inCallback = false) (h2 : other.inCallback = false) :
    (callback_impl_with_set self other act).self.inCallback = false ∧
    (callback_impl_with_set self other act).other.inCallback = false ∧
    (callback_impl_with_set self other act).outcomes =
      self.feat.changeHandlers.map (fun h => (h, (none : Option PyError))) := by
  have hmain := setDispatchLoop_no_reentrancy act self.feat.changeHandlers
    { self := self, other := other, outcomes := [] } h1 h2
  simpa [callback_impl_with_set] using hmain

/-- Witness for the amended C4 at a concrete dispatch. -/
theorem C4_no_flag_no_reentrancy_rejection_witness :
    (({ feat := { name := "Height", changeHandlers := [0, 1] },
        inCallback := false, value := 0 } : FlaggedFeature).inCallback = false) ∧
    (callback_impl_with_set
        { feat := { name := "Height", changeHandlers := [0, 1] },
          inCallback := false, value := 0 }
        { feat := { name := "Width", changeHandlers := [] },
          inCallback := false, value := 1 }
        (fun _ => HandlerAction.setOther 9)).outcomes =
      [(0, none), (1, none)] := by
  refine ⟨rfl, ?_⟩
  have hmain := (C4_no_flag_no_reentrancy_rejection
      { feat := { name := "Height", changeHandlers := [0, 1] },
        inCallback := false, value := 0 }
      { feat := { name := "Width", changeHandlers := [] },
        inCallback := false, value := 1 }
      (fun _ => HandlerAction.setOther 9) rfl rfl).2.2
  simpa using hmain

/-- C5: `get_feature_by_name` — both the vmbpy container variant and the
vimba interface variant — fails with the feature-not-found error
(`VmbFeatureError`) exactly when no discovered feature bears the
requested name, and otherwise returns a discovered feature with that
name. -/
theorem C5_get_feature_by_name_not_found (feats : List FeatureState)
    (name : String) :
    ((∀ f ∈ feats, f.name ≠ name) →
      FeatureContainer.get_feature_by_name feats name =
        Except.error (PyError.vmbFeatureError
          ("Feature " ++ name ++ " not found.")) ∧
      Interface.get_feature_by_name feats name =
        Except.error (PyError.vmbFeatureError
          ("Feature " ++ name ++ " not found."))) ∧
    (∀ f ∈ feats, f.name = name →
      ∃ g, g ∈ feats ∧ g.name = name ∧
        FeatureContainer.get_feature_by_name feats name = Except.ok g ∧
        Interface.get_feature_by_name feats name = Except.ok g) := by
  constructor
  · intro hall
    have hnone : feats.find? (fun f => f.name = name) = none := by
      rw [List.find?_eq_none]
      intro x hx
      simpa using hall x hx
    constructor
    · simp [FeatureContainer.get_feature_by_name, filter_features_by_name, hnone]
    · simp [Interface.get_feature_by_name,
            Interface.filter_features_by_name_raising, hnone]
  · intro f hf hname
    have hsome : (feats.find? (fun f => f.name = name)).isSome := by
      rw [List.find?_isSome]
      exact ⟨f, hf, by simpa using hname⟩
    obtain ⟨g, hg⟩ := Option.isSome_iff_exists.mp hsome
    refine ⟨g, List.mem_of_find?_eq_some hg,
      by simpa using List.find?_some hg, ?_, ?_⟩
    · simp [FeatureContainer.get_feature_by_name, filter_features_by_name, hg]
    · simp [Interface.get_feature_by_name,
            Interface.filter_features_by_name_raising, hg]

/-- Witness for C5 at a concrete miss. -/
theorem C5_get_feature_by_name_witness :
    (∀ f ∈ ([initFeature "Width"] : List FeatureState), f.name ≠ "Gamma") ∧
    FeatureContainer.get_feature_by_name [initFeature "Width"] "Gamma" =
      Except.error (PyError.vmbFeatureError
        ("Feature " ++ "Gamma" ++ " not found.")) := by
  have hall : ∀ f ∈ ([initFeature "Width"] : List FeatureState),
      f.name ≠ "Gamma" := by decide
  exact ⟨hall,
    ((C5_get_feature_by_name_not_found [initFeature "Width"] "Gamma").1 hall).1⟩

/-- C6: `Interface._close` first unregisters all change handlers on
every discovered feature (one native unregistration per feature that has
handlers, in discovery order, all before `VmbInterfaceClose`), then
clears the feature tuple and nulls the handle; afterwards the container
holds no features, and a feature lookup fails with the feature-not-found
error rather than crashing. -/
theorem C6_close_reverses_discovery (s : InterfaceState) :
    (Interface._close s).1.feats = [] ∧
    (Interface._close s).1.handle = 0 ∧
    (Interface._close s).2 =
      (s.feats.filter (fun f => !f.changeHandlers.isEmpty)).map
          (fun f => NativeCall.invalidationUnregister f.name)
        ++ [NativeCall.interfaceClose] ∧
    (∀ n, FeatureContainer.get_feature_by_name (Interface._close s).1.feats n =
      Except.error (PyError.vmbFeatureError ("Feature " ++ n ++ " not found."))) := by
  refine ⟨rfl, rfl, ?_, ?_⟩
  · simp [Interface._close, close_unreg_trace]
  · intro n
    simp [Interface._close, FeatureContainer.get_feature_by_name,
          filter_features_by_name]

/-- C8: `load_settings` and `save_settings` reject a path not ending in
`.xml` with `ValueError` and make no native call; `load_settings`
additionally rejects a non-existing path with `ValueError` before any
native call; once validation passes, each performs exactly one native
settings call. -/
theorem C8_settings_validation (file_exists : String → Bool)
    (file_path : String) :
    (endswith file_path ".xml" = false →
      PersistableFeatureContainer.load_settings file_exists file_path =
        (Except.error (PyError.valueError
          ("Given file " ++ file_path ++ " must end with .xml")), []) ∧
      PersistableFeatureContainer.save_settings file_path =
        (Except.error (PyError.valueError
          ("Given file " ++ file_path ++ " must end with .xml")), [])) ∧
    (endswith file_path ".xml" = true → file_exists file_path = false →
      PersistableFeatureContainer.load_settings file_exists file_path =
        (Except.error (PyError.valueError
          ("Given file " ++ file_path ++ " does not exist.")), [])) ∧
    (endswith file_path ".xml" = true → file_exists file_path = true →
      PersistableFeatureContainer.load_settings file_exists file_path =
        (Except.ok (), [NativeCall.settingsLoad file_path])) ∧
    (endswith file_path ".xml" = true →
      PersistableFeatureContainer.save_settings file_path =
        (Except.ok (), [NativeCall.settingsSave file_path])) := by
  refine ⟨?_, ?_, ?_, ?_⟩
  · intro h1
    constructor
    · simp [PersistableFeatureContainer.load_settings, h1]
    · simp [PersistableFeatureContainer.save_settings, h1]
  · intro h1 h2
    simp [PersistableFeatureContainer.load_settings, h1, h2]
  · intro h1 h2
    simp [PersistableFeatureContainer.load_settings, h1, h2]
  · intro h1
    simp [PersistableFeatureContainer.save_settings, h1]

/-- Witness for C8 at a concrete valid path. -/
theorem C8_settings_validation_witness :
    endswith "cam_settings.xml" ".xml" = true ∧
    PersistableFeatureContainer.load_settings (fun _ => true) "cam_settings.xml" =
      (Except.ok (), [NativeCall.settingsLoad "cam_settings.xml"]) :=
  ⟨by decide,
    (C8_settings_validation (fun _ => true) "cam_settings.xml").2.2.1
      (by decide) rfl⟩

/-- C7: registering pairwise-distinct handlers in a given order makes the
handler list exactly that order, and an invalidation event then invokes
the handlers exactly in that registration order, passing the feature
object itself as the argument of every invocation. -/
theorem C7_dispatch_in_registration_order (name : String) (hs : List Nat)
    (hnd : hs.Nodup) (behave : Nat → Except String Unit) :
    (runHandlerOps (initFeature name) (hs.map HandlerOp.register)).1.changeHandlers = hs ∧
    BaseFeature._callback_impl
        (runHandlerOps (initFeature name) (hs.map HandlerOp.register)).1 behave =
      Except.ok
        { calls := hs.map (fun h =>
            (h, (runHandlerOps (initFeature name) (hs.map HandlerOp.register)).1)),
          logMsgs := hs.filterMap (fun h =>
            match behave h with
            | Except.ok _ => none
            | Except.error e => some (BaseFeature.changeHandlerErrorMsg h e)) } := by
  obtain ⟨hch, -⟩ := runHandlerOps_registers (initFeature name) hs hnd
    (by simp [initFeature])
  have hch' : (runHandlerOps (initFeature name)
      (hs.map HandlerOp.register)).1.changeHandlers = hs := by
    simpa [initFeature] using hch
  refine ⟨hch', ?_⟩
  rw [BaseFeature._callback_impl, hch', dispatchLoop_eq]
  simp

/-- Witness for C7 at a concrete handler list. -/
theorem C7_dispatch_in_registration_order_witness :
    ([4, 7] : List Nat).Nodup ∧
    (runHandlerOps (initFeature "Height")
        ([4, 7].map HandlerOp.register)).1.changeHandlers = [4, 7] :=
  ⟨by decide,
    (C7_dispatch_in_registration_order "Height" [4, 7] (by decide)
      (fun _ => Except.ok ())).1⟩

/-- C10: context entry and exit are counted and nestable: entry opens the
interface and discovers features only on the 0→1 transition of the
counter and otherwise just increments; exit closes (clearing features
and nulling the handle) only on the 1→0 transition and otherwise just
decrements; after `n` balanced pairs the interface is back in the closed
state, and likewise `n` balanced attach/remove pairs on the vmbpy
container leave no feature accessors attached. -/
theorem C10_context_counting (s : InterfaceState) (newHandle : Nat)
    (discovered : List FeatureState) (interfaceId : String) (n : Nat)
    (hn : 0 < n) :
    (s.contextCnt = 0 →
      Interface.enterCtx s newHandle discovered =
        ({ s with handle := newHandle, feats := discovered, contextCnt := 1 },
          [NativeCall.interfaceOpen s.interfaceId])) ∧
    (s.contextCnt ≠ 0 →
      Interface.enterCtx s newHandle discovered =
        ({ s with contextCnt := s.contextCnt + 1 }, [])) ∧
    (s.contextCnt = 1 →
      Interface.exitCtx s =
        ({ s with feats := [], handle := 0, contextCnt := 0 },
          (s.feats.map (fun f =>
              (BaseFeature.unregister_all_change_handlers f).2)).flatten
            ++ [NativeCall.interfaceClose])) ∧
    (s.contextCnt ≠ 1 →
      Interface.exitCtx s = ({ s with contextCnt := s.contextCnt - 1 }, [])) ∧
    Interface.exitN n (Interface.enterN newHandle discovered n
        (Interface.initInterface interfaceId)) =
      { interfaceId := interfaceId, handle := 0, feats := [],
        contextCnt := 0 } ∧
    FeatureContainer.removeN n (FeatureContainer.attachN discovered n
        FeatureContainer.initContainer) =
      { feats := discovered, attachedAccessors := [], contextCnt := 0 } := by
  refine ⟨?_, ?_, ?_, ?_, ?_, ?_⟩
  · intro h0
    simp [Interface.enterCtx, Interface._open, h0]
  · intro h0
    simp [Interface.enterCtx, h0]
  · intro h1
    simp [Interface.exitCtx, Interface._close, h1]
  · intro h1
    have hne : s.contextCnt - 1 ≠ 0 := by omega
    simp [Interface.exitCtx, hne]
  · cases n with
    | zero => omega
    | succ m =>
        have hfirst : (Interface.enterCtx (Interface.initInterface interfaceId)
            newHandle discovered).1 =
            { interfaceId := interfaceId, handle := newHandle,
              feats := discovered, contextCnt := 1 } := by
          simp [Interface.enterCtx, Interface.initInterface, Interface._open]
        rw [Interface.enterN, hfirst, enterN_of_pos newHandle discovered m _
          (by norm_num)]
        rw [exitN_closes (m + 1) _ (by simp; omega) (by omega)]
  · cases n with
    | zero => omega
    | succ m =>
        have hfirst : FeatureContainer._attach_feature_accessors
            FeatureContainer.initContainer discovered =
            { feats := discovered,
              attachedAccessors := discovered.map (fun f => f.name),
              contextCnt := 1 } := by
          simp [FeatureContainer._attach_feature_accessors,
                FeatureContainer.initContainer]
        rw [FeatureContainer.attachN, hfirst,
            attachN_of_pos discovered m _ (by norm_num)]
        rw [removeN_detaches (m + 1) _ (by simp; omega) (by omega)]

/-- Witness for C10 at two balanced context pairs. -/
theorem C10_context_counting_witness :
    (0 < 2) ∧
    Interface.exitN 2 (Interface.enterN 42 [initFeature "Width"] 2
        (Interface.initInterface "VimbaUSBInterface_0x0")) =
      { interfaceId := "VimbaUSBInterface_0x0", handle := 0, feats := [],
        contextCnt := 0 } :=
  ⟨by decide,
    (C10_context_counting (Interface.initInterface "X") 42 [initFeature "Width"]
      "VimbaUSBInterface_0x0" 2 (by decide)).2.2.2.2.1⟩

end VmbPy
